import Mathlib

/-
  Verification development for the Givebutter-to-CiviCRM webhook forwarder.

  The repository contains one baseline implementation (src/index.js) and three
  later variants of the same service (src/unnamed/part_000, three concatenated
  files):
    - variant A (intermediate): resolves the accounting category from a
      "Local Area" custom field on the transaction;
    - variant B (final, with membership): a per-campaign policy table, a
      stored local-area attribute on the contact with a write-back, a
      Givebutter plan lookup, and a membership create/renew operation;
    - variant C: the same category policy and write-back as B without the
      membership manager.

  Shallow embedding conventions:
    - JS strings are String, JS numbers carrying money are Rat, ids are Nat.
    - A JS value that may be undefined or null is Option.
    - JS truthiness of strings (empty string is falsy) is the jsStr helper;
      JS truthiness of numeric ids (0 is falsy) is the jsOr helper.
    - A JS Date is the number of civil days since 1970-01-01 (Int).  The
      process is assumed to run with a UTC local time, as on the intended
      cloud host, so setDate / setMonth / setFullYear act on the civil date.
    - Each outbound HTTP call of the code is recorded in an ApiCall trace;
      the responses of the external CRM and of the Givebutter plan API are
      inputs (one per call site, since each call site runs at most once per
      request), with Except String modelling a thrown transport failure.
-/

/-- JS `a || b` on numeric ids: undefined and 0 are falsy. -/
def jsOr (a b : Option Nat) : Option Nat :=
  match a with
  | some n => if n = 0 then b else some n
  | none => b

/-- JS truthiness for an optional string: undefined, null and "" are falsy. -/
def jsStr : Option String → Option String
  | some "" => none
  | o => o

/-- JS `a || b` on optional strings: b is returned unconverted when a is falsy. -/
def jsOrStr (a b : Option String) : Option String :=
  match jsStr a with
  | some _ => a
  | none => b

/-- JS template interpolation of a possibly-undefined string value. -/
def jsTemplateStr (o : Option String) : String :=
  o.getD "undefined"

/-
  JS Date calendar arithmetic.  daysFromCivil and civilFromDays convert
  between a civil date (year, month 1..12, day) and a day count from
  1970-01-01, using the standard era-based algorithm with floor division.
-/

/-- Day count since 1970-01-01 of the civil date (y, m, d), m in 1..12. -/
def daysFromCivil (y m d : Int) : Int :=
  let yAdj := if m ≤ 2 then y - 1 else y
  let era := yAdj.fdiv 400
  let yoe := yAdj - era * 400
  let mp := (m + 9).emod 12
  let doy := (153 * mp + 2).fdiv 5 + d - 1
  let doe := yoe * 365 + yoe.fdiv 4 - yoe.fdiv 100 + doy
  era * 146097 + doe - 719468

/-- Civil date (year, month 1..12, day) of a day count since 1970-01-01. -/
def civilFromDays (z0 : Int) : Int × Int × Int :=
  let z := z0 + 719468
  let era := z.fdiv 146097
  let doe := z - era * 146097
  let yoe := (doe - doe.fdiv 1460 + doe.fdiv 36524 - doe.fdiv 146096).fdiv 365
  let y := yoe + era * 400
  let doy := doe - (365 * yoe + yoe.fdiv 4 - yoe.fdiv 100)
  let mp := (5 * doy + 2).fdiv 153
  let d := doy - (153 * mp + 2).fdiv 5 + 1
  let m := if mp < 10 then mp + 3 else mp - 9
  (if m ≤ 2 then y + 1 else y, m, d)

/-- JS MakeDay: a month index is normalised into the year, then the day of
    month (possibly out of range) offsets from the first of that month. -/
def jsMakeDay (y mIdx d : Int) : Int :=
  let ym := y + mIdx.fdiv 12
  let mn := mIdx.emod 12
  daysFromCivil ym (mn + 1) 1 + (d - 1)

/-- JS `date.setMonth(date.getMonth() + k)` on a date holding day number z. -/
def addMonthsJS (z k : Int) : Int :=
  let c := civilFromDays z
  jsMakeDay c.1 (c.2.1 - 1 + k) c.2.2

/-- JS `date.setFullYear(date.getFullYear() + k)` on day number z. -/
def addYearsJS (z k : Int) : Int :=
  let c := civilFromDays z
  jsMakeDay (c.1 + k) (c.2.1 - 1) c.2.2

/-- The membership duration object of createOrRenewMembership:
    either \x7b years: n \x7d or \x7b months: n \x7d. -/
inductive Duration where
  | years (n : Int)
  | months (n : Int)
deriving DecidableEq, Repr

/-- Apply a membership duration to a date, as the source does with
    setFullYear / setMonth. -/
def addDuration (z : Int) : Duration → Int
  | .years n => addYearsJS z n
  | .months n => addMonthsJS z n

/-
  Data model of the inbound transaction event, mirroring the fields the
  source reads.  An absent custom_fields array and an empty one behave the
  same in the source (`custom_fields && custom_fields.length > 0`), so
  custom_fields is a plain list.  is_recurring is coerced to Bool as the
  source only tests its truthiness.
-/

/-- One entry of the custom field list of a transaction. -/
structure CustomField where
  id : Nat
  field_id : Nat
  title : String
  value : Option String
deriving DecidableEq, Repr

/-- The nested member sub-object a transaction may carry donor fields under. -/
structure MemberInfo where
  first_name : Option String
  last_name : Option String
  email : Option String
  phone : Option String
deriving DecidableEq, Repr

/-- The transaction object of a transaction.succeeded event. -/
structure Transaction where
  id : String
  amount : Rat
  transacted_at : Option String
  campaign_id : Option String
  campaign_title : Option String
  is_recurring : Bool
  plan_id : Option String
  custom_fields : List CustomField
  first_name : Option String
  last_name : Option String
  email : Option String
  phone : Option String
  member : Option MemberInfo
deriving DecidableEq, Repr

/-- One record of a Contact.get response (fields the source reads). -/
structure ContactRec where
  id : Option Nat
  contact_id : Option Nat
  custom_820 : Option String
deriving DecidableEq, Repr

/-- A Contact.get response: a count and a possibly absent values array. -/
structure GetResp where
  count : Nat
  values : Option (List ContactRec)
deriving DecidableEq, Repr

/-- A CRM create response, flattened to the three places the defensive id
    extraction of the source looks: a direct id field, the id of the first
    element of a values array, and the first key of a values mapping (JS
    object keys are modelled by their numeric value). -/
structure CreateResp where
  id : Option Nat
  valuesFirstId : Option Nat
  valuesFirstKey : Option Nat
deriving DecidableEq, Repr

/-- The defensive extraction
    `result.id || result.values[0].id || Object.keys(result.values)[0]`,
    with JS numeric truthiness at each step. -/
def extractId (r : CreateResp) : Option Nat :=
  jsOr r.id (jsOr r.valuesFirstId r.valuesFirstKey)

/-- One record of a Membership.get response. end_date is a day number;
    an absent end_date makes `new Date(undefined)` an Invalid Date in JS,
    whose comparisons are all false. -/
structure MemRec where
  id : Option Nat
  end_date : Option Int
deriving DecidableEq, Repr

/-- A Membership.get response. -/
structure MemGetResp where
  count : Nat
  values : Option (List MemRec)
deriving DecidableEq, Repr

/-- The plan-detail body returned by the Givebutter plans API. -/
structure PlanDetails where
  frequency : Option String
deriving DecidableEq, Repr

/-- What findOrCreateContact of the final variants returns: the contact id
    and the stored local-area attribute. -/
structure ContactInfo where
  id : Option Nat
  localArea : Option String
deriving DecidableEq, Repr

/-- The Contribution.create parameter object built by the source. -/
structure ContributionData where
  contact_id : Option Nat
  financial_type_id : Nat
  total_amount : Rat
  receive_date : String
  source : String
  trxn_id : String
  invoice_id : String
  contribution_status_id : Nat
  payment_instrument_id : Nat
deriving DecidableEq, Repr

/-- The Membership.create parameter object built by the source.  id is set
    on renewal, join_date on fresh creation; start and end dates are day
    numbers (the source serialises them as the date part of an ISO string). -/
structure MembershipData where
  contact_id : Option Nat
  membership_type_id : Nat
  source : String
  contribution_id : Option Nat
  id : Option Nat
  join_date : Option Int
  start_date : Int
  end_date : Int
  status_id : Nat
deriving DecidableEq, Repr

/-- One outbound HTTP call of the service.  Contact calls are keyed by the
    donor email; the remaining create parameters carry no claim-relevant
    information and are omitted from the trace. -/
inductive ApiCall where
  | contactGet (email : Option String)
  | contactCreate (email : Option String)
  | contactUpdateLocalArea (contactId : Option Nat) (localArea : String)
  | contributionCreate (data : ContributionData)
  | planFetch (planId : String)
  | membershipGet (contactId : Option Nat) (typeId : Nat)
  | membershipCreate (data : MembershipData)
deriving DecidableEq, Repr

/-- The external responses a single webhook invocation can consume, one per
    call site (each call site runs at most once per request).  Except.error
    models a thrown transport or non-2xx failure of civiCRMApi; planLookup
    is the result of getGivebutterPlan, which already returns null on its
    own failures. -/
structure CrmOracles where
  contactGet : Except String GetResp
  contactCreate : Except String CreateResp
  contactUpdate : Except String Unit
  contributionCreate : Except String CreateResp
  planLookup : Option PlanDetails
  membershipGet : Except String MemGetResp
  membershipCreate : Except String CreateResp

/-- The JSON body of an HTTP response of the service. -/
inductive RespBody where
  | empty
  | success (contact_id : Option Nat) (contribution_id : Option Nat)
  | failure (error : String)
  | testSuccess (contact_id : Option Nat) (contribution_id : Option Nat)
deriving DecidableEq, Repr

/-
  Static tables of the source, as total functions.
-/

/-- The label-to-financial-type table (financialTypeMapping of variant A,
    localAreaMapping of the final variants; the two are identical). -/
def localAreaMapping : String → Option Nat
  | "MKP USA" => some 49
  | "Central Plains" => some 18
  | "Chicago" => some 19
  | "Colorado" => some 20
  | "Florida" => some 21
  | "Greater Carolinas" => some 23
  | "Hawaii" => some 25
  | "Heartland" => some 139
  | "Intermountain" => some 28
  | "Metro NY Tri-State" => some 36
  | "Mid Atlantic" => some 24
  | "Mid America" => some 27
  | "New England" => some 34
  | "Northern California" => some 40
  | "Northwest" => some 41
  | "Philadelphia" => some 42
  | "Southern California" => some 31
  | "South Central" => some 51
  | "South East" => some 22
  | "Southwest" => some 17
  | "St. Louis" => some 45
  | "Upstate New York" => some 46
  | "Wisconsin" => some 48
  | _ => none

/-- A campaign entry is either the marker string use_custom_field or a
    fixed financial type id. -/
inductive CampaignPolicy where
  | useCustomField
  | fixedType (n : Nat)
deriving DecidableEq, Repr

/-- campaignFinancialTypeMapping of the final variants: only campaign
    195519 is listed, mapped to use_custom_field. -/
def campaignFinancialTypeMapping : String → Option CampaignPolicy
  | "195519" => some CampaignPolicy.useCustomField
  | _ => none

/-
  Category resolution.
-/

/-- `custom_fields.find(f => f.title === "Local Area" || f.field_id === 64260)`. -/
def findLocalAreaField (fields : List CustomField) : Option CustomField :=
  fields.find? (fun f => f.title == "Local Area" || f.field_id == 64260)

/-- The local-area label a transaction itself supplies: the guarded lookup
    `custom_fields && custom_fields.length > 0`, the find above, then the
    truthiness check `localAreaField && localAreaField.value`.  Variant A
    and the final variants compute this identically. -/
def txLocalArea (t : Transaction) : Option String :=
  if t.custom_fields.isEmpty then none
  else
    match findLocalAreaField t.custom_fields with
    | some f => jsStr f.value
    | none => none

/-- Variant A financial type resolution: default 49, overridden through the
    label table when the transaction supplies a label
    (`financialTypeMapping[value] || 49`; no table value is 0, so the JS
    fallback is getD). -/
def resolveFinancialTypeIntermediate (t : Transaction) : Nat :=
  match txLocalArea t with
  | some v => (localAreaMapping v).getD 49
  | none => 49

/-- The three locals the final variants compute before building the
    contribution payload. -/
structure CategoryResolution where
  financialTypeId : Nat
  localAreaValue : Option String
  shouldUpdateContact : Bool
deriving DecidableEq, Repr

/-- Final-variant category resolution from the campaign policy table, the
    custom field of the transaction and the stored local area of the
    contact.  Mirrors lines 579..622 of variant B (identical in variant C):
    the campaign entry selects the policy; under use_custom_field the
    transaction label wins, the stored label is the fallback, and
    shouldUpdateContact is `!stored || stored !== label`. -/
def resolveFinalCategory (storedLocalArea : Option String) (t : Transaction) :
    CategoryResolution :=
  match t.campaign_id.bind campaignFinancialTypeMapping with
  | some CampaignPolicy.useCustomField =>
    let fromTx := txLocalArea t
    let shouldUpdateContact :=
      match fromTx with
      | some v => jsStr storedLocalArea != some v
      | none => false
    let localAreaValue :=
      match fromTx with
      | some v => some v
      | none => jsStr storedLocalArea
    let financialTypeId :=
      match localAreaValue with
      | some v => (localAreaMapping v).getD 49
      | none => 49
    ⟨financialTypeId, localAreaValue, shouldUpdateContact⟩
  | some (CampaignPolicy.fixedType n) => ⟨n, none, false⟩
  | none => ⟨49, none, false⟩

/-
  Contribution payload builders.
-/

/-- `transaction.transacted_at || new Date().toISOString()`. -/
def receiveDate (transacted_at : Option String) (nowIso : String) : String :=
  match jsStr transacted_at with
  | some s => s
  | none => nowIso

/-- The baseline (src/index.js) contribution payload: fixed financial type 1
    and the raw amount divided by 100. -/
def contributionDataBaseline (contactId : Option Nat) (t : Transaction)
    (nowIso : String) : ContributionData :=
  { contact_id := contactId
    financial_type_id := 1
    total_amount := t.amount / 100
    receive_date := receiveDate t.transacted_at nowIso
    source := "Givebutter: " ++
      jsTemplateStr (jsOrStr t.campaign_id (some "Unknown Campaign"))
    trxn_id := t.id
    invoice_id := t.id
    contribution_status_id := 1
    payment_instrument_id := 1 }

/-- The variant A contribution payload: label-table financial type and the
    raw amount unchanged. -/
def contributionDataIntermediate (contactId : Option Nat) (t : Transaction)
    (nowIso : String) : ContributionData :=
  { contact_id := contactId
    financial_type_id := resolveFinancialTypeIntermediate t
    total_amount := t.amount
    receive_date := receiveDate t.transacted_at nowIso
    source := "Givebutter: " ++
      jsTemplateStr (jsOrStr t.campaign_title
        (jsOrStr t.campaign_id (some "Unknown Campaign")))
    trxn_id := t.id
    invoice_id := t.id
    contribution_status_id := 1
    payment_instrument_id := 1 }

/-- The final-variant contribution payload: campaign-policy financial type
    and the raw amount unchanged. -/
def contributionDataFinal (ci : ContactInfo) (t : Transaction)
    (nowIso : String) : ContributionData :=
  { contact_id := ci.id
    financial_type_id := (resolveFinalCategory ci.localArea t).financialTypeId
    total_amount := t.amount
    receive_date := receiveDate t.transacted_at nowIso
    source := "Givebutter: " ++
      jsTemplateStr (jsOrStr t.campaign_title
        (jsOrStr t.campaign_id (some "Unknown Campaign")))
    trxn_id := t.id
    invoice_id := t.id
    contribution_status_id := 1
    payment_instrument_id := 1 }

/-
  Contact resolution.
-/

/-- Baseline findOrCreateContact: on `count > 0` it returns
    `values[0].id` directly (a missing values array raises a TypeError that
    propagates to the caller); otherwise one Contact.create call, whose
    direct id field is returned. -/
def findOrCreateContactBaseline (email : Option String) (o : CrmOracles) :
    Except String (Option Nat) × List ApiCall :=
  match o.contactGet with
  | .error e => (.error e, [ApiCall.contactGet email])
  | .ok sr =>
    if 0 < sr.count then
      match sr.values with
      | some (c :: _) => (.ok c.id, [ApiCall.contactGet email])
      | _ => (.error "TypeError", [ApiCall.contactGet email])
    else
      match o.contactCreate with
      | .error e => (.error e, [ApiCall.contactGet email, ApiCall.contactCreate email])
      | .ok cr => (.ok cr.id, [ApiCall.contactGet email, ApiCall.contactCreate email])

/-- Variant A findOrCreateContact: guarded match check
    `count > 0 && values && values.length > 0`, id taken as
    `values[0].id || values[0].contact_id`; otherwise one Contact.create
    call with the defensive id extraction. -/
def findOrCreateContactA (email : Option String) (o : CrmOracles) :
    Except String (Option Nat) × List ApiCall :=
  match o.contactGet with
  | .error e => (.error e, [ApiCall.contactGet email])
  | .ok sr =>
    match sr.count, sr.values with
    | _ + 1, some (c :: _) =>
      (.ok (jsOr c.id c.contact_id), [ApiCall.contactGet email])
    | _, _ =>
      match o.contactCreate with
      | .error e => (.error e, [ApiCall.contactGet email, ApiCall.contactCreate email])
      | .ok cr =>
        (.ok (extractId cr), [ApiCall.contactGet email, ApiCall.contactCreate email])

/-- Final-variant findOrCreateContact: as variant A but also returning the
    stored local area (`contact.custom_820 || null`); a fresh contact has
    none. -/
def findOrCreateContactFinal (email : Option String) (o : CrmOracles) :
    Except String ContactInfo × List ApiCall :=
  match o.contactGet with
  | .error e => (.error e, [ApiCall.contactGet email])
  | .ok sr =>
    match sr.count, sr.values with
    | _ + 1, some (c :: _) =>
      (.ok ⟨jsOr c.id c.contact_id, jsStr c.custom_820⟩, [ApiCall.contactGet email])
    | _, _ =>
      match o.contactCreate with
      | .error e => (.error e, [ApiCall.contactGet email, ApiCall.contactCreate email])
      | .ok cr =>
        (.ok ⟨extractId cr, none⟩, [ApiCall.contactGet email, ApiCall.contactCreate email])

/-- updateContactLocalArea: one Contact.create call updating custom_820,
    wrapped in try/catch so a failure is logged and swallowed; the caller
    sees only the issued call. -/
def updateContactLocalArea (contactId : Option Nat) (localArea : String)
    (updResult : Except String Unit) : List ApiCall :=
  match updResult with
  | .error _ => [ApiCall.contactUpdateLocalArea contactId localArea]
  | .ok _ => [ApiCall.contactUpdateLocalArea contactId localArea]

/-
  Membership manager (variant B).
-/

/-- The type/duration decision chain at the head of createOrRenewMembership. -/
def membershipTypeAndDuration (isRecurring : Bool) (frequency : Option String) :
    Nat × Duration :=
  if !isRecurring then (11, Duration.years 1)
  else if frequency == some "monthly" then (10, Duration.months 1)
  else if frequency == some "yearly" || frequency == some "annual" then
    (9, Duration.years 1)
  else if frequency == some "quarterly" then (10, Duration.months 3)
  else (11, Duration.years 1)

/-- Frequency resolution in createContribution of variant B: fetched from
    the plan-detail lookup only when the transaction carries a truthy
    plan_id, and kept only when the lookup succeeded with a truthy
    frequency. -/
def resolveFrequency (planId : Option String) (planLookup : Option PlanDetails) :
    Option String :=
  match jsStr planId with
  | none => none
  | some _ =>
    match planLookup with
    | some pd => jsStr pd.frequency
    | none => none

/-- createOrRenewMembership of variant B.  today is the current day number.
    The whole body is wrapped in try/catch: a failed Membership.get, a
    missing values array under a positive count (a TypeError in JS), or a
    failed Membership.create all yield none.  On `count > 0` with an end
    date strictly after today, the window starts the day after the old end
    date (setDate(getDate()+1), one civil day); otherwise it starts today;
    the end date applies the duration to the start date.  Comparing the
    midnight-parsed end date against the current timestamp is exactly a
    strict comparison of day numbers. -/
def createOrRenewMembership (contactId contributionId : Option Nat)
    (t : Transaction) (frequency : Option String) (today : Int)
    (memGet : Except String MemGetResp) (memCreate : Except String CreateResp) :
    Option Nat × List ApiCall :=
  let td := membershipTypeAndDuration t.is_recurring frequency
  let getCall := [ApiCall.membershipGet contactId td.1]
  match memGet with
  | .error _ => (none, getCall)
  | .ok existing =>
    let startDate0 := today
    let endDate0 := addDuration today td.2
    let src := "Givebutter: " ++ jsTemplateStr (jsOrStr t.campaign_title t.campaign_id)
    let finish := fun (md : MembershipData) =>
      match memCreate with
      | Except.error _ => ((none : Option Nat), getCall ++ [ApiCall.membershipCreate md])
      | Except.ok r => (extractId r, getCall ++ [ApiCall.membershipCreate md])
    match existing.count, existing.values with
    | _ + 1, some (rec :: _) =>
      let window :=
        match rec.end_date with
        | some oldEnd =>
          if today < oldEnd then
            let s := oldEnd + 1
            (s, addDuration s td.2)
          else (startDate0, endDate0)
        | none => (startDate0, endDate0)
      finish
        { contact_id := contactId
          membership_type_id := td.1
          source := src
          contribution_id := contributionId
          id := rec.id
          join_date := none
          start_date := window.1
          end_date := window.2
          status_id := 1 }
    | _ + 1, _ => (none, getCall)
    | 0, _ =>
      finish
        { contact_id := contactId
          membership_type_id := td.1
          source := src
          contribution_id := contributionId
          id := none
          join_date := some today
          start_date := startDate0
          end_date := endDate0
          status_id := 1 }

/-
  Contribution creation.
-/

/-- Baseline createContribution: builds the payload and issues one
    Contribution.create call, returning the raw response. -/
def createContributionBaseline (contactId : Option Nat) (t : Transaction)
    (o : CrmOracles) (nowIso : String) :
    Except String CreateResp × List ApiCall :=
  let payload := contributionDataBaseline contactId t nowIso
  match o.contributionCreate with
  | .error e => (.error e, [ApiCall.contributionCreate payload])
  | .ok r => (.ok r, [ApiCall.contributionCreate payload])

/-- createContribution of variant B: resolves the category, issues the
    best-effort stored-attribute write-back when
    `shouldUpdateContact && localAreaValue`, then the Contribution.create
    call, and for campaign 195519 the plan lookup (when plan_id is truthy)
    and the membership upsert.  Returns the raw response, the defensively
    extracted contribution id and the membership result. -/
def createContributionFinal (ci : ContactInfo) (t : Transaction)
    (o : CrmOracles) (today : Int) (nowIso : String) :
    Except String (CreateResp × Option Nat × Option Nat) × List ApiCall :=
  let r := resolveFinalCategory ci.localArea t
  let updateCalls :=
    match r.localAreaValue, r.shouldUpdateContact with
    | some v, true => updateContactLocalArea ci.id v o.contactUpdate
    | _, _ => []
  let payload := contributionDataFinal ci t nowIso
  let preCalls := updateCalls ++ [ApiCall.contributionCreate payload]
  match o.contributionCreate with
  | .error e => (.error e, preCalls)
  | .ok result =>
    let contributionId := extractId result
    if t.campaign_id == some "195519" then
      let frequency := resolveFrequency t.plan_id o.planLookup
      let planCalls :=
        match jsStr t.plan_id with
        | some pid => [ApiCall.planFetch pid]
        | none => []
      let mem := createOrRenewMembership ci.id contributionId t frequency today
        o.membershipGet o.membershipCreate
      (.ok (result, contributionId, mem.1), preCalls ++ planCalls ++ mem.2)
    else
      (.ok (result, contributionId, none), preCalls)

/-
  Signature verification and HTTP endpoints.
-/

/-- Outcome of the verification middleware: either next() is called or the
    request is answered with 401. -/
inductive VerifyOutcome where
  | proceed
  | reject401
deriving DecidableEq, Repr

/-- verifyGivebutterSignature: a falsy header (absent or empty) skips
    verification; otherwise the header is compared against hmacHex applied
    to the JSON-serialised body.  hmacHex abstracts the hex-encoded
    HMAC-SHA256 keyed by the shared secret. -/
def verifyGivebutterSignature (hmacHex : String → String)
    (signatureHeader : Option String) (bodyJson : String) : VerifyOutcome :=
  match jsStr signatureHeader with
  | none => VerifyOutcome.proceed
  | some s => if s = hmacHex bodyJson then VerifyOutcome.proceed else VerifyOutcome.reject401

/-- The donor email the webhook handler passes to contact resolution:
    `data.email || data.member?.email`. -/
def donorEmail (d : Transaction) : Option String :=
  jsOrStr d.email
    (match d.member with
     | some m => m.email
     | none => none)

/-- The try-block of the webhook handler for a transaction.succeeded event:
    contact resolution followed by contribution creation (variant B),
    yielding the contact id and the raw id field of the contribution
    response, which the success body echoes. -/
def processTransactionSucceeded (d : Transaction) (o : CrmOracles)
    (today : Int) (nowIso : String) :
    Except String (Option Nat × Option Nat) × List ApiCall :=
  match findOrCreateContactFinal (donorEmail d) o with
  | (.error e, calls) => (.error e, calls)
  | (.ok ci, calls1) =>
    match createContributionFinal ci d o today nowIso with
    | (.error e, calls2) => (.error e, calls1 ++ calls2)
    | (.ok (r, _, _), calls2) => (.ok (ci.id, r.id), calls1 ++ calls2)

/-- The webhook request handler after verification: a transaction.succeeded
    event runs the pipeline inside try/catch and answers 200 with either a
    success or a failure body (an absent data object raises a TypeError
    inside the try block before any call is issued); every other event is
    acknowledged with a bare 200. -/
def webhookHandler (event : Option String) (data : Option Transaction)
    (o : CrmOracles) (today : Int) (nowIso : String) :
    Nat × RespBody × List ApiCall :=
  if event == some "transaction.succeeded" then
    match data with
    | none => (200, RespBody.failure "TypeError", [])
    | some d =>
      match processTransactionSucceeded d o today nowIso with
      | (.error e, calls) => (200, RespBody.failure e, calls)
      | (.ok ids, calls) => (200, RespBody.success ids.1 ids.2, calls)
  else (200, RespBody.empty, [])

/-- The full webhook endpoint: the verification middleware followed by the
    handler.  A 401 answer issues no call and runs no processing. -/
def webhookEndpoint (hmacHex : String → String) (bodyJson : String)
    (signatureHeader : Option String) (event : Option String)
    (data : Option Transaction) (o : CrmOracles) (today : Int)
    (nowIso : String) : Nat × RespBody × List ApiCall :=
  match verifyGivebutterSignature hmacHex signatureHeader bodyJson with
  | VerifyOutcome.reject401 => (401, RespBody.empty, [])
  | VerifyOutcome.proceed => webhookHandler event data o today nowIso

/-- The pipeline of the standalone /test endpoint of src/index.js: baseline
    contact resolution then baseline contribution creation over a synthetic
    transaction. -/
def testPipeline (t : Transaction) (o : CrmOracles) (nowIso : String) :
    Except String (Option Nat × CreateResp) :=
  match (findOrCreateContactBaseline t.email o).1 with
  | .error e => .error e
  | .ok cid =>
    match (createContributionBaseline cid t o nowIso).1 with
    | .error e => .error e
    | .ok r => .ok (cid, r)

/-- The /test endpoint: 200 with identifiers on success, 500 with the error
    message on any failure of its pipeline. -/
def testEndpoint (t : Transaction) (o : CrmOracles) (nowIso : String) :
    Nat × RespBody :=
  match testPipeline t o nowIso with
  | .error e => (500, RespBody.failure e)
  | .ok (cid, r) => (200, RespBody.testSuccess cid r.id)

/-
  Trace observations.
-/

/-- Recognises a Contribution.create call in a trace. -/
def isContributionCreateCall : ApiCall → Bool
  | ApiCall.contributionCreate _ => true
  | _ => false

/-- Recognises the stored-attribute write-back call in a trace. -/
def isUpdateLocalAreaCall : ApiCall → Bool
  | ApiCall.contactUpdateLocalArea _ _ => true
  | _ => false

/-- True when some write-back call occurs at a strictly later position of
    the trace than some Contribution.create call. -/
def updateIssuedAfterContribution (tr : List ApiCall) : Bool :=
  tr.enum.any fun ju =>
    isUpdateLocalAreaCall ju.2 &&
    (tr.enum.any fun ic => decide (ic.1 < ju.1) && isContributionCreateCall ic.2)

/-- Number of Contact.create calls in a trace. -/
def countContactCreates (tr : List ApiCall) : Nat :=
  (tr.filter fun c =>
    match c with
    | ApiCall.contactCreate _ => true
    | _ => false).length

/-
  Concrete inputs used by witnesses and counterexamples.
-/

/-- A Local Area custom field carrying the value Colorado. -/
def exColoradoField : CustomField :=
  { id := 20768768, field_id := 64260, title := "Local Area", value := some "Colorado" }

/-- A recurring campaign-195519 transaction carrying the Colorado field. -/
def exTx : Transaction :=
  { id := "txn_1"
    amount := 25
    transacted_at := some "2025-01-15T12:00:00Z"
    campaign_id := some "195519"
    campaign_title := some "Test Campaign"
    is_recurring := true
    plan_id := none
    custom_fields := [exColoradoField]
    first_name := some "Test"
    last_name := some "Donor"
    email := some "testdonor@example.com"
    phone := some "555-1234"
    member := none }

/-- A transaction on an unlisted campaign with no custom fields. -/
def exPlainTx : Transaction :=
  { id := "txn_2"
    amount := 40
    transacted_at := none
    campaign_id := some "777777"
    campaign_title := none
    is_recurring := false
    plan_id := none
    custom_fields := []
    first_name := none
    last_name := none
    email := some "other@example.com"
    phone := none
    member := none }

/-- A contact known to the CRM with no stored local area. -/
def exCI : ContactInfo := { id := some 7, localArea := none }

/-- A create response carrying a direct id field. -/
def exCreateResp : CreateResp := { id := some 9, valuesFirstId := none, valuesFirstKey := none }

/-- A matching contact record. -/
def exContactRec : ContactRec := { id := some 7, contact_id := none, custom_820 := some "Colorado" }

/-- A Contact.get response reporting one match. -/
def exGetRespFound : GetResp := { count := 1, values := some [exContactRec] }

/-- A Contact.get response reporting no match. -/
def exGetRespEmpty : GetResp := { count := 0, values := some [] }

/-- A Membership.get response with one membership ending on day 20060. -/
def exMemRespFuture : MemGetResp :=
  { count := 1, values := some [{ id := some 42, end_date := some 20060 }] }

/-- All-success responses over an unknown email and no existing membership. -/
def exOracles : CrmOracles :=
  { contactGet := .ok exGetRespEmpty
    contactCreate := .ok { id := some 7, valuesFirstId := none, valuesFirstKey := none }
    contactUpdate := .ok ()
    contributionCreate := .ok exCreateResp
    planLookup := none
    membershipGet := .ok { count := 0, values := some [] }
    membershipCreate := .ok { id := some 42, valuesFirstId := none, valuesFirstKey := none } }

/-- Responses over a known email (one matching contact). -/
def exOraclesFound : CrmOracles :=
  { exOracles with contactGet := .ok exGetRespFound }

/-- Responses whose Membership.get call fails. -/
def exOraclesMemFail : CrmOracles :=
  { exOracles with membershipGet := .error "boom" }

/-- Responses whose Contact.get call fails. -/
def exOraclesGetFail : CrmOracles :=
  { exOracles with contactGet := .error "down" }

/-- A stand-in for the hex HMAC function in closed statements. -/
def exHmacHex : String → String := fun _ => "aaaa1111"

/-- The membership data the renewal witness observes: window extended from
    the future end date 20060, one month from day 20061. -/
def exRenewMd : MembershipData :=
  { contact_id := some 7
    membership_type_id := 10
    source := "Givebutter: Test Campaign"
    contribution_id := some 9
    id := some 42
    join_date := none
    start_date := 20061
    end_date := addMonthsJS 20061 1
    status_id := 1 }

/-
  Helper lemmas.
-/

/-- jsStr is the identity on a present non-empty string. -/
theorem jsStr_some_of_ne (s : String) (h : s ≠ "") : jsStr (some s) = some s := by
  unfold jsStr
  split
  · simp_all
  · rfl

/-- The write-back helper always issues exactly its one update call,
    whatever the outcome of that call. -/
theorem updateContactLocalArea_calls (cid : Option Nat) (v : String)
    (u : Except String Unit) :
    updateContactLocalArea cid v u = [ApiCall.contactUpdateLocalArea cid v] := by
  cases u <;> rfl

/-- A failed Membership.get makes the whole membership upsert return none. -/
theorem createOrRenewMembership_get_fail (cid contribId : Option Nat)
    (t : Transaction) (f : Option String) (today : Int) (e : String)
    (memCreate : Except String CreateResp) :
    (createOrRenewMembership cid contribId t f today (Except.error e) memCreate).1 = none := rfl

/-- A failed Membership.create makes the whole membership upsert return none. -/
theorem createOrRenewMembership_create_fail (cid contribId : Option Nat)
    (t : Transaction) (f : Option String) (today : Int)
    (memGet : Except String MemGetResp) (e : String) :
    (createOrRenewMembership cid contribId t f today memGet (Except.error e)).1 = none := by
  unfold createOrRenewMembership
  rcases memGet with _ | ex
  · rfl
  · obtain ⟨cnt, vals⟩ := ex
    cases cnt with
    | zero => rfl
    | succ k =>
      cases vals with
      | none => rfl
      | some l =>
        cases l with
        | nil => rfl
        | cons r rest => rfl

/-- The handler behind a verified webhook request always answers 200. -/
theorem webhookHandler_status (ev : Option String) (d : Option Transaction)
    (o : CrmOracles) (today : Int) (now : String) :
    (webhookHandler ev d o today now).1 = 200 := by
  unfold webhookHandler
  split
  · split
    · rfl
    · split <;> rfl
  · rfl

/-- Under the custom-field campaign policy, the three resolution locals of
    the final variants in terms of the transaction label and the stored
    label. -/
theorem resolveFinalCategory_custom (stored : Option String) (t : Transaction)
    (h : t.campaign_id.bind campaignFinancialTypeMapping =
      some CampaignPolicy.useCustomField) :
    (resolveFinalCategory stored t).localAreaValue =
      (match txLocalArea t with
       | some v => some v
       | none => jsStr stored) ∧
    (resolveFinalCategory stored t).financialTypeId =
      (match (resolveFinalCategory stored t).localAreaValue with
       | some v => (localAreaMapping v).getD 49
       | none => 49) ∧
    (resolveFinalCategory stored t).shouldUpdateContact =
      (match txLocalArea t with
       | some v => jsStr stored != some v
       | none => false) := by
  unfold resolveFinalCategory
  rw [h]
  exact ⟨rfl, rfl, rfl⟩

/-- C9: the baseline contribution payload divides the event amount by 100,
    the later variants carry it unchanged, and the two agree exactly when
    amount/100 equals amount. -/
theorem C9_amount_unit_convention (cid : Option Nat) (ci : ContactInfo)
    (t : Transaction) (now : String) :
    (contributionDataBaseline cid t now).total_amount = t.amount / 100 ∧
    (contributionDataIntermediate cid t now).total_amount = t.amount ∧
    (contributionDataFinal ci t now).total_amount = t.amount ∧
    ((contributionDataBaseline cid t now).total_amount =
        (contributionDataIntermediate cid t now).total_amount ↔
      t.amount / 100 = t.amount) :=
  ⟨rfl, rfl, rfl, Iff.rfl⟩

/-- C10: every webhook request that passes signature verification is
    answered with status 200, whatever the body holds and whatever the
    external calls return. -/
theorem C10_verified_requests_get_200 (hmacHex : String → String)
    (bodyJson : String) (sig : Option String) (ev : Option String)
    (d : Option Transaction) (o : CrmOracles) (today : Int) (now : String)
    (hpass : verifyGivebutterSignature hmacHex sig bodyJson = VerifyOutcome.proceed) :
    (webhookEndpoint hmacHex bodyJson sig ev d o today now).1 = 200 := by
  unfold webhookEndpoint
  rw [hpass]
  exact webhookHandler_status ev d o today now

/-- Witness for C10 at a concrete unverified-but-passing request. -/
theorem C10_witness :
    (webhookEndpoint exHmacHex "{}" none (some "campaign.updated") none
      exOracles 0 "T").1 = 200 :=
  C10_verified_requests_get_200 exHmacHex "{}" none (some "campaign.updated")
    none exOracles 0 "T" rfl

/-- C8: a failure of the transaction.succeeded processing chain is answered
    by the webhook endpoint with status 200 and a body carrying the failure
    and its message, while a failure of the standalone /test pipeline is
    answered with status 500 and the error message. -/
theorem C8_failure_status_mapping (d : Transaction) (t : Transaction)
    (o : CrmOracles) (today : Int) (now : String) :
    (∀ e, (processTransactionSucceeded d o today now).1 = Except.error e →
      webhookHandler (some "transaction.succeeded") (some d) o today now =
        (200, RespBody.failure e, (processTransactionSucceeded d o today now).2)) ∧
    (∀ e, testPipeline t o now = Except.error e →
      testEndpoint t o now = (500, RespBody.failure e)) := by
  constructor
  · intro e he
    rcases hp : processTransactionSucceeded d o today now with ⟨res, calls⟩
    rw [hp] at he
    simp only at he
    subst he
    simp [webhookHandler, hp]
  · intro e he
    simp [testEndpoint, he]

/-- Witness for C8: a failed Contact.get makes the webhook answer 200 with
    the failure body and the /test endpoint answer 500. -/
theorem C8_witness :
    webhookHandler (some "transaction.succeeded") (some exTx) exOraclesGetFail
        20000 "T" =
      (200, RespBody.failure "down",
        (processTransactionSucceeded exTx exOraclesGetFail 20000 "T").2) ∧
    testEndpoint exPlainTx exOraclesGetFail "T" = (500, RespBody.failure "down") := by
  have h := C8_failure_status_mapping exTx exPlainTx exOraclesGetFail 20000 "T"
  exact ⟨h.1 "down" rfl, h.2 "down" rfl⟩

/-- C7 (amended): an absent header passes verification and the request is
    processed; a present non-empty header differing from the HMAC of the
    serialised body is answered 401 with no processing and no outbound
    call; a header equal to the HMAC is processed.  The code treats an
    empty header value like an absent one, which is the amendment. -/
theorem C7_signature_verification (hmacHex : String → String) (bodyJson : String)
    (ev : Option String) (d : Option Transaction) (o : CrmOracles)
    (today : Int) (now : String) :
    (webhookEndpoint hmacHex bodyJson none ev d o today now =
      webhookHandler ev d o today now) ∧
    (∀ s, s ≠ "" → s ≠ hmacHex bodyJson →
      webhookEndpoint hmacHex bodyJson (some s) ev d o today now =
        (401, RespBody.empty, [])) ∧
    (webhookEndpoint hmacHex bodyJson (some (hmacHex bodyJson)) ev d o today now =
      webhookHandler ev d o today now) := by
  refine ⟨rfl, ?_, ?_⟩
  · intro s hs hne
    unfold webhookEndpoint verifyGivebutterSignature
    rw [jsStr_some_of_ne s hs]
    simp [hne]
  · by_cases hb : hmacHex bodyJson = ""
    · unfold webhookEndpoint verifyGivebutterSignature
      rw [hb]
      rfl
    · unfold webhookEndpoint verifyGivebutterSignature
      rw [jsStr_some_of_ne _ hb]
      simp

/-- Witness for C7 at a concrete mismatched non-empty header. -/
theorem C7_witness :
    webhookEndpoint exHmacHex "{}" (some "wrong") none none exOracles 0 "T" =
      (401, RespBody.empty, []) := by
  have h := C7_signature_verification exHmacHex "{}" none none exOracles 0 "T"
  exact h.2.1 "wrong" (by decide) (by decide)

/-- Counterexample for C7 as stated: an empty signature header is present
    and differs from the HMAC of the body, yet the request passes
    verification and is processed with status 200 rather than 401. -/
theorem C7_counterexample :
    ("" ≠ exHmacHex "{}") ∧
    verifyGivebutterSignature exHmacHex (some "") "{}" = VerifyOutcome.proceed ∧
    (webhookEndpoint exHmacHex "{}" (some "") none none exOracles 0 "T").1 = 200 :=
  ⟨by decide, rfl, rfl⟩

/-- C4: the membership type and duration decision table, including the
    fallback to Annual Non-Renewing when the frequency is unrecognised or
    left unresolved by an absent plan id or a failed plan lookup. -/
theorem C4_membership_decision_table (f : Option String) (planId : Option String)
    (lookup : Option PlanDetails) :
    (∀ b : Bool, b = false →
      membershipTypeAndDuration b f = (11, Duration.years 1)) ∧
    membershipTypeAndDuration true (some "monthly") = (10, Duration.months 1) ∧
    membershipTypeAndDuration true (some "yearly") = (9, Duration.years 1) ∧
    membershipTypeAndDuration true (some "annual") = (9, Duration.years 1) ∧
    membershipTypeAndDuration true (some "quarterly") = (10, Duration.months 3) ∧
    (f ≠ some "monthly" → f ≠ some "yearly" → f ≠ some "annual" →
      f ≠ some "quarterly" →
      membershipTypeAndDuration true f = (11, Duration.years 1)) ∧
    (planId = none ∨ lookup = none → resolveFrequency planId lookup = none) := by
  refine ⟨?_, by decide, by decide, by decide, by decide, ?_, ?_⟩
  · intro b hb
    subst hb
    rfl
  · intro h1 h2 h3 h4
    simp [membershipTypeAndDuration, h1, h2, h3, h4]
  · intro h
    rcases h with h | h
    · subst h
      rfl
    · subst h
      unfold resolveFrequency
      cases jsStr planId <;> rfl

/-- Witness for C4 at an unrecognised frequency and an absent plan lookup. -/
theorem C4_witness :
    membershipTypeAndDuration true (some "weekly") = (11, Duration.years 1) ∧
    resolveFrequency (some "plan_9") none = none := by
  have h := C4_membership_decision_table (some "weekly") (some "plan_9") none
  exact ⟨h.2.2.2.2.2.1 (by decide) (by decide) (by decide) (by decide),
    h.2.2.2.2.2.2 (Or.inr rfl)⟩

/-- C1: under the custom-field category policy (all transactions in variant
    A, campaign 195519 in the final variants), a resolved local-area label
    of Colorado puts financial type 20 on the contribution payload, and a
    label that is absent or not a key of the table puts the default 49. -/
theorem C1_local_area_category (t : Transaction) (cid : Option Nat)
    (ci : ContactInfo) (now : String) :
    (txLocalArea t = some "Colorado" →
      (contributionDataIntermediate cid t now).financial_type_id = 20) ∧
    ((txLocalArea t).bind localAreaMapping = none →
      (contributionDataIntermediate cid t now).financial_type_id = 49) ∧
    (t.campaign_id.bind campaignFinancialTypeMapping =
        some CampaignPolicy.useCustomField →
      ((resolveFinalCategory ci.localArea t).localAreaValue = some "Colorado" →
        (contributionDataFinal ci t now).financial_type_id = 20) ∧
      (((resolveFinalCategory ci.localArea t).localAreaValue).bind
          localAreaMapping = none →
        (contributionDataFinal ci t now).financial_type_id = 49)) := by
  refine ⟨?_, ?_, ?_⟩
  · intro h
    show resolveFinancialTypeIntermediate t = 20
    unfold resolveFinancialTypeIntermediate
    rw [h]
    decide
  · intro h
    show resolveFinancialTypeIntermediate t = 49
    unfold resolveFinancialTypeIntermediate
    cases ht : txLocalArea t with
    | none => rfl
    | some v =>
      rw [ht] at h
      simp only [Option.some_bind] at h
      simp [h]
  · intro hr
    have hc := resolveFinalCategory_custom ci.localArea t hr
    constructor
    · intro hlav
      show (resolveFinalCategory ci.localArea t).financialTypeId = 20
      rw [hc.2.1, hlav]
      decide
    · intro hnone
      show (resolveFinalCategory ci.localArea t).financialTypeId = 49
      rw [hc.2.1]
      cases hl : (resolveFinalCategory ci.localArea t).localAreaValue with
      | none => rfl
      | some v =>
        rw [hl] at hnone
        simp only [Option.some_bind] at hnone
        simp [hnone]

/-- Witness for C1: the Colorado transaction maps to 20 in both variants,
    and a transaction with no label maps to the default 49. -/
theorem C1_witness :
    (contributionDataIntermediate (some 7) exTx "T").financial_type_id = 20 ∧
    (contributionDataIntermediate (some 7) exPlainTx "T").financial_type_id = 49 ∧
    (contributionDataFinal exCI exTx "T").financial_type_id = 20 := by
  refine ⟨(C1_local_area_category exTx (some 7) exCI "T").1 (by decide),
    (C1_local_area_category exPlainTx (some 7) exCI "T").2.1 (by decide),
    ((C1_local_area_category exTx (some 7) exCI "T").2.2 (by decide)).1 (by decide)⟩

/-- C5: over a well-formed Contact.get response (a positive count reports
    exactly the presence of a first values record), contact resolution
    issues a Contact.create call exactly when the lookup reports no match:
    a match yields no create call and the matched id, no match yields one
    create call and the id carried by the create response. -/
theorem C5_contact_resolution (email : Option String) (o : CrmOracles)
    (sr : GetResp) (hget : o.contactGet = Except.ok sr)
    (hwf : 0 < sr.count ↔ ∃ c cs, sr.values = some (c :: cs)) :
    (sr.count = 0 →
      countContactCreates (findOrCreateContactBaseline email o).2 = 1 ∧
      countContactCreates (findOrCreateContactA email o).2 = 1 ∧
      ∀ cr, o.contactCreate = Except.ok cr →
        (findOrCreateContactBaseline email o).1 = Except.ok cr.id ∧
        (findOrCreateContactA email o).1 = Except.ok (extractId cr)) ∧
    (∀ c cs, sr.values = some (c :: cs) →
      countContactCreates (findOrCreateContactBaseline email o).2 = 0 ∧
      countContactCreates (findOrCreateContactA email o).2 = 0 ∧
      (findOrCreateContactBaseline email o).1 = Except.ok c.id ∧
      (findOrCreateContactA email o).1 = Except.ok (jsOr c.id c.contact_id)) := by
  constructor
  · intro h0
    have hnov : ∀ c cs, sr.values ≠ some (c :: cs) := by
      intro c cs hv
      have := hwf.mpr ⟨c, cs, hv⟩
      omega
    rcases hv : sr.values with _ | l
    · cases hcr : o.contactCreate with
      | error e =>
        refine ⟨?_, ?_, ?_⟩
        · simp [findOrCreateContactBaseline, hget, h0, hcr, countContactCreates]
        · simp [findOrCreateContactA, hget, h0, hv, hcr, countContactCreates]
        · intro cr hcr2
          exact absurd hcr2 (by simp)
      | ok cr0 =>
        refine ⟨?_, ?_, ?_⟩
        · simp [findOrCreateContactBaseline, hget, h0, hcr, countContactCreates]
        · simp [findOrCreateContactA, hget, h0, hv, hcr, countContactCreates]
        · intro cr hcr2
          injection hcr2 with hcr3
          subst hcr3
          constructor
          · simp [findOrCreateContactBaseline, hget, h0, hcr]
          · simp [findOrCreateContactA, hget, h0, hv, hcr]
    · rcases l with _ | ⟨c0, cs0⟩
      · cases hcr : o.contactCreate with
        | error e =>
          refine ⟨?_, ?_, ?_⟩
          · simp [findOrCreateContactBaseline, hget, h0, hcr, countContactCreates]
          · simp [findOrCreateContactA, hget, h0, hv, hcr, countContactCreates]
          · intro cr hcr2
            exact absurd hcr2 (by simp)
        | ok cr0 =>
          refine ⟨?_, ?_, ?_⟩
          · simp [findOrCreateContactBaseline, hget, h0, hcr, countContactCreates]
          · simp [findOrCreateContactA, hget, h0, hv, hcr, countContactCreates]
          · intro cr hcr2
            injection hcr2 with hcr3
            subst hcr3
            constructor
            · simp [findOrCreateContactBaseline, hget, h0, hcr]
            · simp [findOrCreateContactA, hget, h0, hv, hcr]
      · exact absurd hv (hnov c0 cs0)
  · intro c cs hv
    have hpos : 0 < sr.count := hwf.mpr ⟨c, cs, hv⟩
    rcases hk : sr.count with _ | k
    · omega
    · refine ⟨?_, ?_, ?_, ?_⟩
      · simp [findOrCreateContactBaseline, hget, hk, hv, countContactCreates]
      · simp [findOrCreateContactA, hget, hk, hv, countContactCreates]
      · simp [findOrCreateContactBaseline, hget, hk, hv]
      · simp [findOrCreateContactA, hget, hk, hv]

/-- Witness for C5 at a known email with one matching contact. -/
theorem C5_witness :
    countContactCreates (findOrCreateContactBaseline (some "a@b.c")
      exOraclesFound).2 = 0 ∧
    (findOrCreateContactA (some "a@b.c") exOraclesFound).1 = Except.ok (some 7) := by
  have h := C5_contact_resolution (some "a@b.c") exOraclesFound exGetRespFound rfl
    ⟨fun _ => ⟨exContactRec, [], rfl⟩, fun _ => by decide⟩
  have h2 := h.2 exContactRec [] rfl
  exact ⟨h2.1, h2.2.2.2⟩

/-- C6: once the Contribution.create call succeeds, the rest of the flow of
    variant B cannot fail it: a failed stored-attribute write-back is
    swallowed inside updateContactLocalArea, and a failed membership upsert
    is caught inside createOrRenewMembership and surfaces only as a none
    membership result. -/
theorem C6_enhancement_failures_isolated (ci : ContactInfo) (t : Transaction)
    (o : CrmOracles) (today : Int) (now : String) (cr : CreateResp)
    (hcr : o.contributionCreate = Except.ok cr) :
    (∃ out, (createContributionFinal ci t o today now).1 = Except.ok out) ∧
    (∀ e, o.membershipGet = Except.error e →
      ∀ out, (createContributionFinal ci t o today now).1 = Except.ok out →
        out.2.2 = none) ∧
    (∀ e, o.membershipCreate = Except.error e →
      ∀ out, (createContributionFinal ci t o today now).1 = Except.ok out →
        out.2.2 = none) ∧
    (∀ cid v u, updateContactLocalArea cid v (Except.error u) =
      [ApiCall.contactUpdateLocalArea cid v]) := by
  have hmain : (createContributionFinal ci t o today now).1 =
      Except.ok (cr, extractId cr,
        if t.campaign_id == some "195519" then
          (createOrRenewMembership ci.id (extractId cr) t
            (resolveFrequency t.plan_id o.planLookup) today o.membershipGet
            o.membershipCreate).1
        else none) := by
    unfold createContributionFinal
    rw [hcr]
    split
    · next x e heq => simp at heq
    · next x cr2 heq =>
      injection heq with h2
      subst h2
      by_cases hcond : (t.campaign_id == some "195519") = true
      · simp only [if_pos hcond]
      · simp only [if_neg hcond]
  refine ⟨⟨_, hmain⟩, ?_, ?_, ?_⟩
  · intro e he out hout
    rw [hmain] at hout
    injection hout with h1
    subst h1
    show (if t.campaign_id == some "195519" then _ else none) = none
    split
    · rw [he]
      exact createOrRenewMembership_get_fail ci.id (extractId cr) t
        (resolveFrequency t.plan_id o.planLookup) today e o.membershipCreate
    · rfl
  · intro e he out hout
    rw [hmain] at hout
    injection hout with h1
    subst h1
    show (if t.campaign_id == some "195519" then _ else none) = none
    split
    · rw [he]
      exact createOrRenewMembership_create_fail ci.id (extractId cr) t
        (resolveFrequency t.plan_id o.planLookup) today o.membershipGet e
    · rfl
  · intro cid v u
    rfl

/-- Witness for C6: with a failing Membership.get the contribution flow
    still completes and reports no membership. -/
theorem C6_witness :
    (∃ out, (createContributionFinal exCI exTx exOraclesMemFail 20000 "T").1 =
      Except.ok out) ∧
    (∀ out, (createContributionFinal exCI exTx exOraclesMemFail 20000 "T").1 =
      Except.ok out → out.2.2 = none) := by
  have h := C6_enhancement_failures_isolated exCI exTx exOraclesMemFail 20000 "T"
    exCreateResp rfl
  exact ⟨h.1, fun out hout => h.2.1 "boom" rfl out hout⟩

/-- C2 (amended): under the custom-field campaign policy the category label
    is resolved from the transaction custom field when one with a value is
    present and only otherwise from the stored contact value; and whenever
    the transaction supplies a value differing from (or absent on) the
    stored value, the write-back call onto the contact is issued BEFORE the
    contribution-create call (the source awaits it during category
    resolution, ahead of building and submitting the payload). -/
theorem C2_precedence_and_writeback_order (ci : ContactInfo) (t : Transaction)
    (o : CrmOracles) (today : Int) (now : String) :
    (t.campaign_id.bind campaignFinancialTypeMapping =
        some CampaignPolicy.useCustomField →
      (∀ v, txLocalArea t = some v →
        (resolveFinalCategory ci.localArea t).localAreaValue = some v) ∧
      (txLocalArea t = none →
        (resolveFinalCategory ci.localArea t).localAreaValue =
          jsStr ci.localArea)) ∧
    (∀ v, t.campaign_id.bind campaignFinancialTypeMapping =
        some CampaignPolicy.useCustomField →
      txLocalArea t = some v → jsStr ci.localArea ≠ some v →
      ∃ rest, (createContributionFinal ci t o today now).2 =
        ApiCall.contactUpdateLocalArea ci.id v ::
          ApiCall.contributionCreate (contributionDataFinal ci t now) :: rest) := by
  constructor
  · intro hr
    have hc := resolveFinalCategory_custom ci.localArea t hr
    constructor
    · intro v hv
      rw [hc.1, hv]
    · intro hv
      rw [hc.1, hv]
  · intro v hr hv hne
    have hc := resolveFinalCategory_custom ci.localArea t hr
    have hlav : (resolveFinalCategory ci.localArea t).localAreaValue = some v := by
      rw [hc.1, hv]
    have hshould : (resolveFinalCategory ci.localArea t).shouldUpdateContact = true := by
      rw [hc.2.2, hv]
      exact bne_iff_ne.mpr hne
    simp only [createContributionFinal]
    rw [hlav, hshould]
    simp only [updateContactLocalArea_calls, List.cons_append, List.nil_append]
    cases o.contributionCreate with
    | error e => exact ⟨[], rfl⟩
    | ok result =>
      by_cases hcond : (t.campaign_id == some "195519") = true
      · simp only [if_pos hcond]
        exact ⟨_, rfl⟩
      · simp only [if_neg hcond]
        exact ⟨[], rfl⟩

/-- Witness for C2 (amended) at the Colorado transaction over a contact
    with no stored label. -/
theorem C2_witness :
    ∃ rest, (createContributionFinal exCI exTx exOracles 20000 "T").2 =
      ApiCall.contactUpdateLocalArea (some 7) "Colorado" ::
        ApiCall.contributionCreate (contributionDataFinal exCI exTx "T") :: rest := by
  have h := (C2_precedence_and_writeback_order exCI exTx exOracles 20000 "T").2
    "Colorado" (by decide) (by decide) (by decide)
  exact h

/-- Counterexample for C2 as stated: at the Colorado transaction over a
    contact with no stored value the write-back is issued, yet no
    write-back call sits at a later trace position than the
    contribution-create call — the update comes first, the create second. -/
theorem C2_counterexample :
    txLocalArea exTx = some "Colorado" ∧
    exCI.localArea = none ∧
    (createContributionFinal exCI exTx exOracles 20000 "T").2.head? =
      some (ApiCall.contactUpdateLocalArea (some 7) "Colorado") ∧
    ((createContributionFinal exCI exTx exOracles 20000 "T").2.drop 1).head? =
      some (ApiCall.contributionCreate (contributionDataFinal exCI exTx "T")) ∧
    updateIssuedAfterContribution
      (createContributionFinal exCI exTx exOracles 20000 "T").2 = false := by
  refine ⟨by decide, rfl, rfl, rfl, by decide⟩

/-- C3: when an existing membership of the resolved type is found, the
    Membership.create data issued by the upsert starts the day after the
    old end date when that end date lies strictly in the future and today
    otherwise, and its end date always applies the resolved duration to the
    start date. -/
theorem C3_membership_window (cid contribId : Option Nat) (t : Transaction)
    (f : Option String) (today : Int) (memCreate : Except String CreateResp)
    (resp : MemGetResp) (k : Nat) (rec : MemRec) (rest : List MemRec)
    (hcount : resp.count = k + 1) (hvals : resp.values = some (rec :: rest)) :
    ∀ md, ApiCall.membershipCreate md ∈
        (createOrRenewMembership cid contribId t f today (Except.ok resp)
          memCreate).2 →
      md.end_date =
        addDuration md.start_date (membershipTypeAndDuration t.is_recurring f).2 ∧
      (∀ oldEnd, rec.end_date = some oldEnd →
        md.start_date = if today < oldEnd then oldEnd + 1 else today) ∧
      (rec.end_date = none → md.start_date = today) := by
  intro md hmd
  simp only [createOrRenewMembership, hcount, hvals] at hmd
  cases memCreate with
  | error e =>
    simp only [List.mem_append, List.mem_singleton, List.mem_cons,
      List.not_mem_nil, or_false] at hmd
    rcases hmd with hmd | hmd
    · exact absurd hmd (by simp)
    · injection hmd with h1
      subst h1
      refine ⟨?_, ?_, ?_⟩
      · cases he : rec.end_date with
        | none => rfl
        | some oldEnd =>
          simp only [he]
          split
          · rfl
          · rfl
      · intro oldEnd he
        by_cases h5 : today < oldEnd
        · simp only [he, if_pos h5]
        · simp only [he, if_neg h5]
      · intro he
        rw [he]
  | ok r =>
    simp only [List.mem_append, List.mem_singleton, List.mem_cons,
      List.not_mem_nil, or_false] at hmd
    rcases hmd with hmd | hmd
    · exact absurd hmd (by simp)
    · injection hmd with h1
      subst h1
      refine ⟨?_, ?_, ?_⟩
      · cases he : rec.end_date with
        | none => rfl
        | some oldEnd =>
          simp only [he]
          split
          · rfl
          · rfl
      · intro oldEnd he
        by_cases h5 : today < oldEnd
        · simp only [he, if_pos h5]
        · simp only [he, if_neg h5]
      · intro he
        rw [he]

/-- Witness for C3: an existing monthly membership ending on the future day
    20060 is renewed with a window starting 20061 and ending one JS month
    later. -/
theorem C3_witness :
    exRenewMd.end_date = addDuration exRenewMd.start_date (Duration.months 1) ∧
    exRenewMd.start_date = 20061 := by
  have h := C3_membership_window (some 7) (some 9) exTx (some "monthly") 20000
    (Except.ok exCreateResp) exMemRespFuture 0 ⟨some 42, some 20060⟩ [] rfl rfl
  have h2 := h exRenewMd (by decide)
  have h3 := h2.2.1 20060 rfl
  rw [if_pos (by norm_num)] at h3
  exact ⟨h2.1, h3⟩
